import Mathlib

/-!
# Verification of the Pixel live-demo projection engine

Shallow embedding of the calculation logic of
`src/copy_of_pixel_live_demo_site.jsx` (namespace `Pixel`) and of the
duplicate root component `src/unnamed/part_000` (namespace `Pixel2`).
All arithmetic is modelled over `ℚ`; every intermediate constant of the
source's `useCalculator` pipeline becomes one named definition.
-/

/-- One row of the source's `CITY_TABLE`:
`{ city, mult, avg }` (relative CPL multiplier, metro average home value). -/
structure CityEntry where
  city : String
  mult : ℚ
  avg : ℚ
deriving DecidableEq, Repr

/-- The pair of fields the pipeline reads off the resolved metro entry
(`metro.mult` and `metro.avg`); the fallback literal `{ mult: 1, avg: 350000 }`
has exactly these fields. -/
structure Metro where
  mult : ℚ
  avg : ℚ
deriving DecidableEq, Repr

/-- The user-adjustable state slots read by the calculation
(`channel`, `spend`, `pmc`, `gpc`, `apptRate`, `uplift`, `baseMeta`,
`baseGoogle`, `commissionRate`, `closeRate`, `fundedCap`) together with the
resolved metro fields `mult`/`avg` used by the formulas. -/
structure CalcInput where
  channel : String
  spend : ℚ
  pmc : ℚ
  gpc : ℚ
  apptRate : ℚ
  uplift : ℚ
  baseMeta : ℚ
  baseGoogle : ℚ
  commissionRate : ℚ
  closeRate : ℚ
  fundedCap : ℚ
  mult : ℚ
  avg : ℚ
deriving DecidableEq, Repr

/-- The `out` object returned by `useCalculator` (all numeric fields). -/
structure CalcOutput where
  competitorCpl : ℚ
  pixelCpl : ℚ
  funded : ℚ
  pixelBudget : ℚ
  competitorLeads : ℚ
  pixelLeads : ℚ
  competitorAppts : ℚ
  pixelAppts : ℚ
  competitorCpa : ℚ
  pixelCpa : ℚ
  competitorClosed : ℚ
  pixelClosed : ℚ
  competitorRevenue : ℚ
  pixelRevenue : ℚ
  costOfWaiting : ℚ
  deltaAppts : ℚ
  deltaRevenue : ℚ
  acv : ℚ
deriving DecidableEq, Repr

namespace Pixel

/-- `CITY_TABLE` of `src/copy_of_pixel_live_demo_site.jsx`, lines 28-67. -/
def CITY_TABLE : List CityEntry := [
  ⟨"New York, NY", 135/100, 700000⟩,
  ⟨"San Francisco, CA", 135/100, 1200000⟩,
  ⟨"Los Angeles, CA", 13/10, 900000⟩,
  ⟨"Miami, FL", 13/10, 600000⟩,
  ⟨"Boston, MA", 13/10, 800000⟩,
  ⟨"Washington, DC", 13/10, 750000⟩,
  ⟨"San Jose, CA", 13/10, 1300000⟩,
  ⟨"Seattle, WA", 125/100, 850000⟩,
  ⟨"San Diego, CA", 125/100, 900000⟩,
  ⟨"Austin, TX", 12/10, 480000⟩,
  ⟨"Denver, CO", 12/10, 550000⟩,
  ⟨"Chicago, IL", 12/10, 360000⟩,
  ⟨"Philadelphia, PA", 12/10, 350000⟩,
  ⟨"Portland, OR", 12/10, 525000⟩,
  ⟨"Phoenix, AZ", 12/10, 450000⟩,
  ⟨"Dallas, TX", 115/100, 420000⟩,
  ⟨"Atlanta, GA", 115/100, 400000⟩,
  ⟨"Tampa, FL", 115/100, 380000⟩,
  ⟨"Charlotte, NC", 115/100, 380000⟩,
  ⟨"Nashville, TN", 115/100, 475000⟩,
  ⟨"Orlando, FL", 115/100, 380000⟩,
  ⟨"Houston, TX", 1, 330000⟩,
  ⟨"Minneapolis, MN", 1, 370000⟩,
  ⟨"Raleigh, NC", 1, 420000⟩,
  ⟨"Salt Lake City, UT", 1, 500000⟩,
  ⟨"Las Vegas, NV", 1, 430000⟩,
  ⟨"San Antonio, TX", 1, 320000⟩,
  ⟨"Columbus, OH", 1, 300000⟩,
  ⟨"Indianapolis, IN", 1, 290000⟩,
  ⟨"Cincinnati, OH", 1, 285000⟩,
  ⟨"Kansas City, MO", 1, 310000⟩,
  ⟨"St. Louis, MO", 1, 280000⟩,
  ⟨"Oklahoma City, OK", 9/10, 260000⟩,
  ⟨"Jacksonville, FL", 9/10, 325000⟩,
  ⟨"Cleveland, OH", 9/10, 220000⟩,
  ⟨"Pittsburgh, PA", 9/10, 275000⟩,
  ⟨"Milwaukee, WI", 9/10, 285000⟩,
  ⟨"San Juan, PR", 85/100, 300000⟩]

/-- Line 90: `CITY_TABLE.find((c) => c.city === city) || { mult: 1, avg: 350000 }`,
projected to the `mult`/`avg` fields the pipeline reads. -/
def metroOf (city : String) : Metro :=
  match CITY_TABLE.find? (fun c => c.city == city) with
  | some c => ⟨c.mult, c.avg⟩
  | none => ⟨1, 350000⟩

/-- Line 96: `(channel === "meta" ? baseMeta : baseGoogle) * metro.mult`. -/
def baseCpl (i : CalcInput) : ℚ :=
  (if i.channel == "meta" then i.baseMeta else i.baseGoogle) * i.mult

/-- Line 97: `competitorCpl = baseCpl`. -/
def competitorCpl (i : CalcInput) : ℚ := baseCpl i

/-- Line 98: `pixelCpl = competitorCpl * (1 - uplift)`. -/
def pixelCpl (i : CalcInput) : ℚ := competitorCpl i * (1 - i.uplift)

/-- Line 99: `funded = Math.min(fundedCap, Math.max(0, pmc) + Math.max(0, gpc))`. -/
def funded (i : CalcInput) : ℚ :=
  min i.fundedCap (max 0 i.pmc + max 0 i.gpc)

/-- Line 100: `pixelBudget = Math.max(0, spend) + funded`. -/
def pixelBudget (i : CalcInput) : ℚ := max 0 i.spend + funded i

/-- Line 102: `competitorLeads = spend > 0 && competitorCpl > 0 ? spend / competitorCpl : 0`. -/
def competitorLeads (i : CalcInput) : ℚ :=
  if 0 < i.spend ∧ 0 < competitorCpl i then i.spend / competitorCpl i else 0

/-- Line 103: `pixelLeads = pixelBudget > 0 && pixelCpl > 0 ? pixelBudget / pixelCpl : 0`. -/
def pixelLeads (i : CalcInput) : ℚ :=
  if 0 < pixelBudget i ∧ 0 < pixelCpl i then pixelBudget i / pixelCpl i else 0

/-- Line 105: `competitorAppts = competitorLeads * apptRate`. -/
def competitorAppts (i : CalcInput) : ℚ := competitorLeads i * i.apptRate

/-- Line 106: `pixelAppts = pixelLeads * apptRate`. -/
def pixelAppts (i : CalcInput) : ℚ := pixelLeads i * i.apptRate

/-- Line 108: `competitorCpa = competitorAppts > 0 ? spend / competitorAppts : 0`. -/
def competitorCpa (i : CalcInput) : ℚ :=
  if 0 < competitorAppts i then i.spend / competitorAppts i else 0

/-- Line 109: `pixelCpa = pixelAppts > 0 ? pixelBudget / pixelAppts : 0`. -/
def pixelCpa (i : CalcInput) : ℚ :=
  if 0 < pixelAppts i then pixelBudget i / pixelAppts i else 0

/-- Line 93: `acv = metro.avg * commissionRate`. -/
def acv (i : CalcInput) : ℚ := i.avg * i.commissionRate

/-- Line 111: `competitorClosed = competitorAppts * closeRate`. -/
def competitorClosed (i : CalcInput) : ℚ := competitorAppts i * i.closeRate

/-- Line 112: `pixelClosed = pixelAppts * closeRate`. -/
def pixelClosed (i : CalcInput) : ℚ := pixelAppts i * i.closeRate

/-- Line 113: `competitorRevenue = competitorClosed * acv`. -/
def competitorRevenue (i : CalcInput) : ℚ := competitorClosed i * acv i

/-- Line 114: `pixelRevenue = pixelClosed * acv`. -/
def pixelRevenue (i : CalcInput) : ℚ := pixelClosed i * acv i

/-- Line 116: `costOfWaiting = pixelRevenue`. -/
def costOfWaiting (i : CalcInput) : ℚ := pixelRevenue i

/-- Lines 95-138: the `out` object assembled by the `useMemo` body. -/
def calcOut (i : CalcInput) : CalcOutput where
  competitorCpl := competitorCpl i
  pixelCpl := pixelCpl i
  funded := funded i
  pixelBudget := pixelBudget i
  competitorLeads := competitorLeads i
  pixelLeads := pixelLeads i
  competitorAppts := competitorAppts i
  pixelAppts := pixelAppts i
  competitorCpa := competitorCpa i
  pixelCpa := pixelCpa i
  competitorClosed := competitorClosed i
  pixelClosed := pixelClosed i
  competitorRevenue := competitorRevenue i
  pixelRevenue := pixelRevenue i
  costOfWaiting := costOfWaiting i
  deltaAppts := pixelAppts i - competitorAppts i
  deltaRevenue := pixelRevenue i - competitorRevenue i
  acv := acv i

/-- The initial values of the `useState` slots (lines 73-87), with the first
table entry (`CITY_TABLE[0]`) resolved into the `mult`/`avg` fields:
channel "meta", spend 1000, pmc 500, gpc 0, apptRate 0.2, uplift 0.15,
baseMeta 16, baseGoogle 85, commissionRate 0.025, closeRate 0.25,
fundedCap 1300, metro "New York, NY". -/
def defaultInput : CalcInput :=
  ⟨"meta", 1000, 500, 0, 2/10, 15/100, 16, 85, 25/1000, 25/100, 1300, 135/100, 700000⟩

end Pixel

namespace Pixel2

/-- `CITY_TABLE` of `src/unnamed/part_000`, lines 28-67 (the duplicate root
component); textually the same rows as `Pixel.CITY_TABLE`. -/
def CITY_TABLE : List CityEntry := [
  ⟨"New York, NY", 135/100, 700000⟩,
  ⟨"San Francisco, CA", 135/100, 1200000⟩,
  ⟨"Los Angeles, CA", 13/10, 900000⟩,
  ⟨"Miami, FL", 13/10, 600000⟩,
  ⟨"Boston, MA", 13/10, 800000⟩,
  ⟨"Washington, DC", 13/10, 750000⟩,
  ⟨"San Jose, CA", 13/10, 1300000⟩,
  ⟨"Seattle, WA", 125/100, 850000⟩,
  ⟨"San Diego, CA", 125/100, 900000⟩,
  ⟨"Austin, TX", 12/10, 480000⟩,
  ⟨"Denver, CO", 12/10, 550000⟩,
  ⟨"Chicago, IL", 12/10, 360000⟩,
  ⟨"Philadelphia, PA", 12/10, 350000⟩,
  ⟨"Portland, OR", 12/10, 525000⟩,
  ⟨"Phoenix, AZ", 12/10, 450000⟩,
  ⟨"Dallas, TX", 115/100, 420000⟩,
  ⟨"Atlanta, GA", 115/100, 400000⟩,
  ⟨"Tampa, FL", 115/100, 380000⟩,
  ⟨"Charlotte, NC", 115/100, 380000⟩,
  ⟨"Nashville, TN", 115/100, 475000⟩,
  ⟨"Orlando, FL", 115/100, 380000⟩,
  ⟨"Houston, TX", 1, 330000⟩,
  ⟨"Minneapolis, MN", 1, 370000⟩,
  ⟨"Raleigh, NC", 1, 420000⟩,
  ⟨"Salt Lake City, UT", 1, 500000⟩,
  ⟨"Las Vegas, NV", 1, 430000⟩,
  ⟨"San Antonio, TX", 1, 320000⟩,
  ⟨"Columbus, OH", 1, 300000⟩,
  ⟨"Indianapolis, IN", 1, 290000⟩,
  ⟨"Cincinnati, OH", 1, 285000⟩,
  ⟨"Kansas City, MO", 1, 310000⟩,
  ⟨"St. Louis, MO", 1, 280000⟩,
  ⟨"Oklahoma City, OK", 9/10, 260000⟩,
  ⟨"Jacksonville, FL", 9/10, 325000⟩,
  ⟨"Cleveland, OH", 9/10, 220000⟩,
  ⟨"Pittsburgh, PA", 9/10, 275000⟩,
  ⟨"Milwaukee, WI", 9/10, 285000⟩,
  ⟨"San Juan, PR", 85/100, 300000⟩]

/-- part_000 line 89: `CITY_TABLE.find((c) => c.city === city) || { mult: 1, avg: 350000 }`. -/
def metroOf (city : String) : Metro :=
  match CITY_TABLE.find? (fun c => c.city == city) with
  | some c => ⟨c.mult, c.avg⟩
  | none => ⟨1, 350000⟩

/-- part_000 lines 94-137: the whole `out` pipeline of the duplicate
component (lines 95-115 compute the same chain of constants as the first
file, with the same guards). -/
def calcOut (i : CalcInput) : CalcOutput :=
  let acv := i.avg * i.commissionRate
  let baseCpl := (if i.channel == "meta" then i.baseMeta else i.baseGoogle) * i.mult
  let competitorCpl := baseCpl
  let pixelCpl := competitorCpl * (1 - i.uplift)
  let funded := min i.fundedCap (max 0 i.pmc + max 0 i.gpc)
  let pixelBudget := max 0 i.spend + funded
  let competitorLeads := if 0 < i.spend ∧ 0 < competitorCpl then i.spend / competitorCpl else 0
  let pixelLeads := if 0 < pixelBudget ∧ 0 < pixelCpl then pixelBudget / pixelCpl else 0
  let competitorAppts := competitorLeads * i.apptRate
  let pixelAppts := pixelLeads * i.apptRate
  let competitorCpa := if 0 < competitorAppts then i.spend / competitorAppts else 0
  let pixelCpa := if 0 < pixelAppts then pixelBudget / pixelAppts else 0
  let competitorClosed := competitorAppts * i.closeRate
  let pixelClosed := pixelAppts * i.closeRate
  let competitorRevenue := competitorClosed * acv
  let pixelRevenue := pixelClosed * acv
  let costOfWaiting := pixelRevenue
  ⟨competitorCpl, pixelCpl, funded, pixelBudget, competitorLeads, pixelLeads,
   competitorAppts, pixelAppts, competitorCpa, pixelCpa, competitorClosed,
   pixelClosed, competitorRevenue, pixelRevenue, costOfWaiting,
   pixelAppts - competitorAppts, pixelRevenue - competitorRevenue, acv⟩

end Pixel2

/-- The Market Reference Table exactly as enumerated in the spec (§6), in the
spec's order, with the spec's market names taken verbatim as the `name`
lookup key — transcribed from the spec's words for comparison with the
source's `CITY_TABLE`. -/
def SPEC_TABLE : List CityEntry := [
  ⟨"New York NY", 135/100, 700000⟩,
  ⟨"San Francisco CA", 135/100, 1200000⟩,
  ⟨"Los Angeles CA", 13/10, 900000⟩,
  ⟨"Miami FL", 13/10, 600000⟩,
  ⟨"Boston MA", 13/10, 800000⟩,
  ⟨"Washington DC", 13/10, 750000⟩,
  ⟨"San Jose CA", 13/10, 1300000⟩,
  ⟨"Seattle WA", 125/100, 850000⟩,
  ⟨"San Diego CA", 125/100, 900000⟩,
  ⟨"Austin TX", 12/10, 480000⟩,
  ⟨"Denver CO", 12/10, 550000⟩,
  ⟨"Chicago IL", 12/10, 360000⟩,
  ⟨"Philadelphia PA", 12/10, 350000⟩,
  ⟨"Portland OR", 12/10, 525000⟩,
  ⟨"Phoenix AZ", 12/10, 450000⟩,
  ⟨"Dallas TX", 115/100, 420000⟩,
  ⟨"Atlanta GA", 115/100, 400000⟩,
  ⟨"Tampa FL", 115/100, 380000⟩,
  ⟨"Charlotte NC", 115/100, 380000⟩,
  ⟨"Nashville TN", 115/100, 475000⟩,
  ⟨"Orlando FL", 115/100, 380000⟩,
  ⟨"Houston TX", 1, 330000⟩,
  ⟨"Minneapolis MN", 1, 370000⟩,
  ⟨"Raleigh NC", 1, 420000⟩,
  ⟨"Salt Lake City UT", 1, 500000⟩,
  ⟨"Las Vegas NV", 1, 430000⟩,
  ⟨"San Antonio TX", 1, 320000⟩,
  ⟨"Columbus OH", 1, 300000⟩,
  ⟨"Indianapolis IN", 1, 290000⟩,
  ⟨"Cincinnati OH", 1, 285000⟩,
  ⟨"Kansas City MO", 1, 310000⟩,
  ⟨"St. Louis MO", 1, 280000⟩,
  ⟨"Oklahoma City OK", 9/10, 260000⟩,
  ⟨"Jacksonville FL", 9/10, 325000⟩,
  ⟨"Cleveland OH", 9/10, 220000⟩,
  ⟨"Pittsburgh PA", 9/10, 275000⟩,
  ⟨"Milwaukee WI", 9/10, 285000⟩,
  ⟨"San Juan PR", 85/100, 300000⟩]

/-- Rewrites the final space of a name as ", " (so `"New York NY"` becomes
`"New York, NY"`): the uniform difference between the spec's enumerated
market names and the `city` keys stored in the source table. -/
def insertCommaAux : List Char → List Char
  | [] => []
  | c :: cs =>
      if c == ' ' && !(cs.contains ' ') then ',' :: ' ' :: cs
      else c :: insertCommaAux cs

/-- `commaName "New York NY" = "New York, NY"`: inserts a comma before the
trailing state code of a spec-enumerated market name. -/
def commaName (s : String) : String := ⟨insertCommaAux s.data⟩

attribute [local semireducible] Rat.add Rat.mul Rat.sub Rat.inv

/-- C2: for every input the platform CPL is the competitor CPL times
`(1 - efficiencyUplift)`, the competitor CPL is the channel-selected baseline
cost times the market cost multiplier, and with zero uplift the two CPLs are
exactly equal. -/
theorem cpl_relation (i : CalcInput) :
    (Pixel.calcOut i).pixelCpl = (Pixel.calcOut i).competitorCpl * (1 - i.uplift) ∧
    (Pixel.calcOut i).competitorCpl =
      (if i.channel == "meta" then i.baseMeta else i.baseGoogle) * i.mult ∧
    (i.uplift = 0 → (Pixel.calcOut i).pixelCpl = (Pixel.calcOut i).competitorCpl) := by
  refine ⟨rfl, rfl, fun h => ?_⟩
  show Pixel.pixelCpl i = Pixel.competitorCpl i
  unfold Pixel.pixelCpl
  rw [h]
  ring

/-- Witness for `cpl_relation`: at the default input with the uplift set to
zero, the two CPLs coincide. -/
theorem cpl_relation_witness :
    (Pixel.calcOut { Pixel.defaultInput with uplift := 0 }).pixelCpl
      = (Pixel.calcOut { Pixel.defaultInput with uplift := 0 }).competitorCpl :=
  (cpl_relation { Pixel.defaultInput with uplift := 0 }).2.2 rfl

/-- C5: the `costOfWaiting` output is the platform-scenario revenue by
definition, for every input. -/
theorem costOfWaiting_eq_pixelRevenue (i : CalcInput) :
    (Pixel.calcOut i).costOfWaiting = (Pixel.calcOut i).pixelRevenue := rfl

/-- C10: the channel dispatch is keyed on exact equality with `"meta"`: any
other channel string (known or not) selects the `baseGoogle` baseline; the
selection is total. -/
theorem channel_dispatch (i : CalcInput) :
    (i.channel = "meta" → (Pixel.calcOut i).competitorCpl = i.baseMeta * i.mult) ∧
    (i.channel ≠ "meta" → (Pixel.calcOut i).competitorCpl = i.baseGoogle * i.mult) := by
  constructor
  · intro h
    show Pixel.baseCpl i = i.baseMeta * i.mult
    unfold Pixel.baseCpl
    rw [if_pos (by simp [h])]
  · intro h
    show Pixel.baseCpl i = i.baseGoogle * i.mult
    unfold Pixel.baseCpl
    rw [if_neg (by simpa using h)]

/-- Witness for `channel_dispatch`: the default channel `"meta"` selects the
meta baseline, and the unknown channel `"bing"` selects the google baseline. -/
theorem channel_dispatch_witness :
    (Pixel.calcOut Pixel.defaultInput).competitorCpl
      = Pixel.defaultInput.baseMeta * Pixel.defaultInput.mult ∧
    (Pixel.calcOut { Pixel.defaultInput with channel := "bing" }).competitorCpl
      = Pixel.defaultInput.baseGoogle * Pixel.defaultInput.mult :=
  ⟨(channel_dispatch Pixel.defaultInput).1 rfl,
   (channel_dispatch { Pixel.defaultInput with channel := "bing" }).2 (by decide)⟩

/-- C4: the market lookup is total and deterministic: it returns the
(`mult`, `avg`) fields of the table entry whose `city` name is exactly equal
to the requested string, and the fixed default `⟨1, 350000⟩` when no entry
matches. -/
theorem metroOf_spec (name : String) :
    (∀ e, e ∈ Pixel.CITY_TABLE → e.city = name →
        Pixel.metroOf name = ⟨e.mult, e.avg⟩) ∧
    ((∀ e, e ∈ Pixel.CITY_TABLE → e.city ≠ name) →
        Pixel.metroOf name = ⟨1, 350000⟩) := by
  constructor
  · intro e he hname
    have hnodup : (Pixel.CITY_TABLE.map CityEntry.city).Nodup := by decide
    unfold Pixel.metroOf
    cases hfind : Pixel.CITY_TABLE.find? (fun c => c.city == name) with
    | none =>
        rw [List.find?_eq_none] at hfind
        exact absurd (by simpa using hname) (hfind e he)
    | some f =>
        have hf1 := List.find?_some hfind
        have hf2 : f ∈ Pixel.CITY_TABLE := List.mem_of_find?_eq_some hfind
        have hf3 : f.city = name := by simpa using hf1
        have hfe : f = e :=
          List.inj_on_of_nodup_map hnodup hf2 he (by rw [hf3, hname])
        rw [hfe]
  · intro h
    have hfind : Pixel.CITY_TABLE.find? (fun c => c.city == name) = none := by
      rw [List.find?_eq_none]
      intro x hx
      simpa using h x hx
    unfold Pixel.metroOf
    rw [hfind]

/-- Witness for `metroOf_spec`: the stored key `"Austin, TX"` resolves to its
table row, and the unknown name `"Gotham"` resolves to the default entry. -/
theorem metroOf_spec_witness :
    Pixel.metroOf "Austin, TX" = ⟨12/10, 480000⟩ ∧
    Pixel.metroOf "Gotham" = ⟨1, 350000⟩ :=
  ⟨(metroOf_spec "Austin, TX").1 ⟨"Austin, TX", 12/10, 480000⟩ (by decide) rfl,
   (metroOf_spec "Gotham").2 (by decide)⟩

/-- C3: a zero client spend yields zero competitor leads, appointments and
cost-per-appointment (the division guards return the sentinel `0`, and the
model is a total function on `ℚ`, so no division blow-up or error can occur);
symmetrically a non-positive platform budget or platform CPL yields zero
platform leads. -/
theorem zero_spend_guards (i : CalcInput) :
    (i.spend = 0 →
      (Pixel.calcOut i).competitorLeads = 0 ∧
      (Pixel.calcOut i).competitorAppts = 0 ∧
      (Pixel.calcOut i).competitorCpa = 0) ∧
    ((Pixel.calcOut i).pixelBudget ≤ 0 ∨ (Pixel.calcOut i).pixelCpl ≤ 0 →
      (Pixel.calcOut i).pixelLeads = 0) := by
  constructor
  · intro h
    have hl : Pixel.competitorLeads i = 0 := by
      unfold Pixel.competitorLeads
      rw [if_neg]
      rintro ⟨hs, -⟩
      rw [h] at hs
      exact lt_irrefl 0 hs
    have ha : Pixel.competitorAppts i = 0 := by
      unfold Pixel.competitorAppts
      rw [hl, zero_mul]
    have hcpa : Pixel.competitorCpa i = 0 := by
      unfold Pixel.competitorCpa
      rw [if_neg]
      rw [ha]
      exact lt_irrefl 0
    exact ⟨hl, ha, hcpa⟩
  · intro h
    show Pixel.pixelLeads i = 0
    unfold Pixel.pixelLeads
    rw [if_neg]
    rintro ⟨hb, hc⟩
    rcases h with h | h
    · exact absurd hb (not_lt.2 h)
    · exact absurd hc (not_lt.2 h)

/-- Witness for `zero_spend_guards`: with the default input at zero spend the
competitor metrics are all zero, and with an uplift of 2 (negative platform
CPL) the platform leads are zero. -/
theorem zero_spend_guards_witness :
    (Pixel.calcOut { Pixel.defaultInput with spend := 0 }).competitorLeads = 0 ∧
    (Pixel.calcOut { Pixel.defaultInput with spend := 0 }).competitorCpa = 0 ∧
    (Pixel.calcOut { Pixel.defaultInput with uplift := 2 }).pixelLeads = 0 :=
  ⟨((zero_spend_guards { Pixel.defaultInput with spend := 0 }).1 rfl).1,
   ((zero_spend_guards { Pixel.defaultInput with spend := 0 }).1 rfl).2.2,
   (zero_spend_guards { Pixel.defaultInput with uplift := 2 }).2 (Or.inr (by decide))⟩

/-- C1 counterexample: with a negative funded cap (and zero credits) the
applied credit is the cap itself, hence strictly below zero — so the applied
credit can go below 0 when the quantification ranges over every `fundedCap`. -/
theorem appliedCredit_nonneg_cex :
    (Pixel.calcOut { Pixel.defaultInput with fundedCap := -1, pmc := 0, gpc := 0 }).funded
      = -1 ∧
    (Pixel.calcOut { Pixel.defaultInput with fundedCap := -1, pmc := 0, gpc := 0 }).funded
      < 0 := by decide

/-- C1 (amended): for every input the applied credit equals
`min(fundedCap, max(0, pmc) + max(0, gpc))` and never exceeds `fundedCap`;
it never goes below 0 provided `fundedCap` is non-negative. -/
theorem appliedCredit_spec (i : CalcInput) :
    (Pixel.calcOut i).funded = min i.fundedCap (max 0 i.pmc + max 0 i.gpc) ∧
    (Pixel.calcOut i).funded ≤ i.fundedCap ∧
    (0 ≤ i.fundedCap → 0 ≤ (Pixel.calcOut i).funded) :=
  ⟨rfl, min_le_left _ _,
   fun h => le_min h (add_nonneg (le_max_left _ _) (le_max_left _ _))⟩

/-- Witness for `appliedCredit_spec`: the default funded cap (1300) is
non-negative and the resulting applied credit is non-negative. -/
theorem appliedCredit_spec_witness :
    0 ≤ Pixel.defaultInput.fundedCap ∧ 0 ≤ (Pixel.calcOut Pixel.defaultInput).funded :=
  ⟨by decide, (appliedCredit_spec Pixel.defaultInput).2.2 (by decide)⟩

/-- C6 counterexample: with the lead-to-appointment rate set to 0 (all other
inputs at their defaults), both CPLs are positive and the budget is positive,
the uplift strictly increases from 0 to 1/2, yet neither the platform
appointments nor the platform revenue strictly increases (both stay 0). -/
theorem uplift_mono_cex :
    0 < (Pixel.calcOut { Pixel.defaultInput with apptRate := 0, uplift := 0 }).pixelCpl ∧
    0 < (Pixel.calcOut { Pixel.defaultInput with apptRate := 0, uplift := 1/2 }).pixelCpl ∧
    0 < (Pixel.calcOut { Pixel.defaultInput with apptRate := 0, uplift := 0 }).pixelBudget ∧
    ¬ ((Pixel.calcOut { Pixel.defaultInput with apptRate := 0, uplift := 0 }).pixelAppts <
       (Pixel.calcOut { Pixel.defaultInput with apptRate := 0, uplift := 1/2 }).pixelAppts) ∧
    ¬ ((Pixel.calcOut { Pixel.defaultInput with apptRate := 0, uplift := 0 }).pixelRevenue <
       (Pixel.calcOut { Pixel.defaultInput with apptRate := 0, uplift := 1/2 }).pixelRevenue) := by
  decide

/-- C6 (amended): holding all other inputs fixed, with a positive competitor
CPL, a positive platform budget, both uplifts below 1, and positive
appointment rate, close rate and conversion value, strictly increasing the
uplift strictly increases both the platform appointments and the platform
revenue. -/
theorem uplift_strict_mono (i : CalcInput) (u v : ℚ)
    (hb : 0 < (Pixel.calcOut i).competitorCpl)
    (hbud : 0 < (Pixel.calcOut i).pixelBudget)
    (huv : u < v) (hv : v < 1)
    (hr : 0 < i.apptRate) (hc : 0 < i.closeRate)
    (ha : 0 < (Pixel.calcOut i).acv) :
    (Pixel.calcOut { i with uplift := u }).pixelAppts <
      (Pixel.calcOut { i with uplift := v }).pixelAppts ∧
    (Pixel.calcOut { i with uplift := u }).pixelRevenue <
      (Pixel.calcOut { i with uplift := v }).pixelRevenue := by
  have hb' : 0 < Pixel.competitorCpl i := hb
  have hbud' : 0 < Pixel.pixelBudget i := hbud
  have h1 : 0 < 1 - v := by linarith
  have h2 : 1 - v < 1 - u := by linarith
  have hposv : 0 < Pixel.competitorCpl i * (1 - v) := mul_pos hb' h1
  have hposu : 0 < Pixel.competitorCpl i * (1 - u) := mul_pos hb' (h1.trans h2)
  have hlt : Pixel.competitorCpl i * (1 - v) < Pixel.competitorCpl i * (1 - u) :=
    mul_lt_mul_of_pos_left h2 hb'
  have keyu : Pixel.pixelLeads { i with uplift := u } =
      Pixel.pixelBudget i / (Pixel.competitorCpl i * (1 - u)) := by
    show (if 0 < Pixel.pixelBudget { i with uplift := u } ∧
            0 < Pixel.pixelCpl { i with uplift := u }
          then Pixel.pixelBudget { i with uplift := u } /
            Pixel.pixelCpl { i with uplift := u }
          else 0) = _
    rw [if_pos ⟨hbud', hposu⟩]
    rfl
  have keyv : Pixel.pixelLeads { i with uplift := v } =
      Pixel.pixelBudget i / (Pixel.competitorCpl i * (1 - v)) := by
    show (if 0 < Pixel.pixelBudget { i with uplift := v } ∧
            0 < Pixel.pixelCpl { i with uplift := v }
          then Pixel.pixelBudget { i with uplift := v } /
            Pixel.pixelCpl { i with uplift := v }
          else 0) = _
    rw [if_pos ⟨hbud', hposv⟩]
    rfl
  have hleads : Pixel.pixelLeads { i with uplift := u } <
      Pixel.pixelLeads { i with uplift := v } := by
    rw [keyu, keyv]
    exact div_lt_div_of_pos_left hbud' hposv hlt
  constructor
  · show Pixel.pixelLeads { i with uplift := u } * i.apptRate <
        Pixel.pixelLeads { i with uplift := v } * i.apptRate
    exact mul_lt_mul_of_pos_right hleads hr
  · show Pixel.pixelLeads { i with uplift := u } * i.apptRate * i.closeRate *
        Pixel.acv i <
      Pixel.pixelLeads { i with uplift := v } * i.apptRate * i.closeRate *
        Pixel.acv i
    exact mul_lt_mul_of_pos_right
      (mul_lt_mul_of_pos_right (mul_lt_mul_of_pos_right hleads hr) hc) ha

/-- Witness for `uplift_strict_mono`: raising the uplift from 0 to 1/2 at the
default input strictly increases platform appointments and revenue. -/
theorem uplift_strict_mono_witness :
    (Pixel.calcOut { Pixel.defaultInput with uplift := 0 }).pixelAppts <
      (Pixel.calcOut { Pixel.defaultInput with uplift := 1/2 }).pixelAppts ∧
    (Pixel.calcOut { Pixel.defaultInput with uplift := 0 }).pixelRevenue <
      (Pixel.calcOut { Pixel.defaultInput with uplift := 1/2 }).pixelRevenue :=
  uplift_strict_mono Pixel.defaultInput 0 (1/2) (by decide) (by decide)
    (by decide) (by decide) (by decide) (by decide) (by decide)

/-- C7 counterexample: at the claim's own exemplar (uplift = 1.5, other
inputs default) the platform CPL is negative but the platform leads are 0 —
zeroed by the lead guard — and so are appointments and revenue; nothing
negative propagates past the CPL. -/
theorem negative_cpl_cex :
    (Pixel.calcOut { Pixel.defaultInput with uplift := 3/2 }).pixelCpl < 0 ∧
    (Pixel.calcOut { Pixel.defaultInput with uplift := 3/2 }).pixelLeads = 0 ∧
    (Pixel.calcOut { Pixel.defaultInput with uplift := 3/2 }).pixelAppts = 0 ∧
    (Pixel.calcOut { Pixel.defaultInput with uplift := 3/2 }).pixelRevenue = 0 := by
  decide

/-- C7 (amended): an out-of-range uplift (> 1, with positive competitor CPL)
does produce a negative platform CPL, but platform leads are never negative
for any input: a non-positive platform CPL makes the lead guard return 0, and
the zero then propagates to appointments and revenue. -/
theorem negative_cpl_guard (i : CalcInput) :
    0 ≤ (Pixel.calcOut i).pixelLeads ∧
    (0 < (Pixel.calcOut i).competitorCpl → 1 < i.uplift →
      (Pixel.calcOut i).pixelCpl < 0) ∧
    ((Pixel.calcOut i).pixelCpl ≤ 0 →
      (Pixel.calcOut i).pixelLeads = 0 ∧ (Pixel.calcOut i).pixelAppts = 0 ∧
      (Pixel.calcOut i).pixelRevenue = 0) := by
  refine ⟨?_, ?_, ?_⟩
  · show 0 ≤ Pixel.pixelLeads i
    unfold Pixel.pixelLeads
    by_cases hcond : 0 < Pixel.pixelBudget i ∧ 0 < Pixel.pixelCpl i
    · rw [if_pos hcond]
      exact le_of_lt (div_pos hcond.1 hcond.2)
    · rw [if_neg hcond]
  · intro hb hu
    show Pixel.pixelCpl i < 0
    unfold Pixel.pixelCpl
    exact mul_neg_of_pos_of_neg hb (by linarith)
  · intro h
    have hl : Pixel.pixelLeads i = 0 := by
      unfold Pixel.pixelLeads
      rw [if_neg]
      rintro ⟨-, hcpl⟩
      exact absurd hcpl (not_lt.2 h)
    have hap : Pixel.pixelAppts i = 0 := by
      unfold Pixel.pixelAppts
      rw [hl, zero_mul]
    have hrev : Pixel.pixelRevenue i = 0 := by
      unfold Pixel.pixelRevenue Pixel.pixelClosed
      rw [hap, zero_mul, zero_mul]
    exact ⟨hl, hap, hrev⟩

/-- Witness for `negative_cpl_guard`: at the default input with uplift 3 the
platform CPL is negative and the platform leads are zero. -/
theorem negative_cpl_guard_witness :
    (Pixel.calcOut { Pixel.defaultInput with uplift := 3 }).pixelCpl < 0 ∧
    (Pixel.calcOut { Pixel.defaultInput with uplift := 3 }).pixelLeads = 0 :=
  ⟨(negative_cpl_guard { Pixel.defaultInput with uplift := 3 }).2.1
      (by decide) (by decide),
   ((negative_cpl_guard { Pixel.defaultInput with uplift := 3 }).2.2
      (by decide)).1⟩

/-- C8 counterexample: the name column of the source table is not the
spec-enumerated name column (the source keys carry a comma before the state
code), and looking up the spec's enumerated first name `"New York NY"` falls
through to the default entry instead of the New York row. -/
theorem city_table_spec_cex :
    Pixel.CITY_TABLE.map CityEntry.city ≠ SPEC_TABLE.map CityEntry.city ∧
    Pixel.metroOf "New York NY" = ⟨1, 350000⟩ := by decide

/-- C8 (amended): the source table has exactly the 38 spec-enumerated rows in
the spec's order with the spec's costMultiplier and referenceAssetPrice
values, but each stored name (the lookup key) is the enumerated name with a
comma inserted before the state code (e.g. `"New York, NY"`), not the bare
enumerated name. -/
theorem city_table_contents :
    Pixel.CITY_TABLE.length = 38 ∧
    Pixel.CITY_TABLE.map CityEntry.mult = SPEC_TABLE.map CityEntry.mult ∧
    Pixel.CITY_TABLE.map CityEntry.avg = SPEC_TABLE.map CityEntry.avg ∧
    Pixel.CITY_TABLE.map CityEntry.city =
      SPEC_TABLE.map (fun e => commaName e.city) := by
  refine ⟨rfl, by decide, by decide, by decide⟩

/-- C9: the duplicated root component in `src/unnamed/part_000` computes
exactly the same projection as the one in
`src/copy_of_pixel_live_demo_site.jsx`: same table, same market lookup, and
the same output snapshot for every input. -/
theorem duplicate_pipeline_equiv :
    (∀ i : CalcInput, Pixel2.calcOut i = Pixel.calcOut i) ∧
    (∀ name : String, Pixel2.metroOf name = Pixel.metroOf name) ∧
    Pixel2.CITY_TABLE = Pixel.CITY_TABLE :=
  ⟨fun _ => rfl, fun _ => rfl, rfl⟩
